import Mathlib

/-!
XS::AtomicCompareAndSwap32 and XS::Atomic.

A verification development for the two components of the repository:

* `source/Atomic-Functions/AtomicCompareAndSwap32.cpp`: the 32-bit
  compare-and-swap free function, one body per platform branch;
* `include/XS/Atomic.hpp`: the class template `XS::Atomic< T >` with its two
  specialisations, the one over `std::atomic< T >` (trivially copyable `T`) and
  the one over a plain `T` guarded by a `std::recursive_mutex`.

Memory locations and objects are modelled by their contents; a member function
becomes a function from the contents of the objects it touches to their
contents afterwards, together with what it returns.  A call that has to wait
for a mutex held by another thread has no result (`none`).

What the code takes from the platform and the standard library is modelled by
its documented behaviour: the three compare-and-swap primitives, the loads and
stores of `std::atomic< T >`, `std::recursive_mutex`, `std::lock_guard` and
`std::lock`.  Copying a `T` yields the same value.

A member of a class template is only compiled where it is used.  Some members
of `Atomic.hpp` are rejected by the language rules once they are used: those
that copy, move or swap a `std::atomic< T >`, whose copy operations are
deleted, and those that pass a temporary lock guard to a parameter of type
`_L_ &`.  Such a member has the outcome `Except.error`, with the rule that
rejects it; a member that is accepted has its behaviour as outcome.
-/

namespace XS

/-! ## AtomicCompareAndSwap32 -/

/-- The two shapes of `return *( this );` in `Atomic.hpp`: from a function
declared `Atomic< T > &` the caller receives the object itself, from a function
declared `Atomic< T >` it receives a temporary copy-constructed from it. -/
inductive Returned (α : Type) where
  | self : Returned α
  | temporary (copy : α) : Returned α
  deriving DecidableEq, Repr

/-- The object a returned value designates, given the object the call was made on. -/
def Returned.object {α : Type} (this : α) : Returned α → α
  | Returned.self => this
  | Returned.temporary copy => copy

/-! ## Members the language rules reject -/

/-- Why a use of a member is rejected when the member is compiled. -/
inductive IllFormed where
  /-- Overload resolution selects a function declared `= delete`. -/
  | deleted_function
  /-- No candidate function accepts the arguments. -/
  | no_matching_function
  deriving DecidableEq, Repr

/-- The value category of an argument expression. -/
inductive ValueCategory where
  | lvalue
  | xvalue
  | prvalue
  deriving DecidableEq, Repr

/-- Binding an argument to a parameter of non-const lvalue reference type,
such as `_L_ & l`: only an lvalue binds, for any other argument the function
is not a candidate. -/
def bindLvalueRef : ValueCategory → Except IllFormed Unit
  | ValueCategory.lvalue => Except.ok ()
  | ValueCategory.xvalue => Except.error IllFormed.no_matching_function
  | ValueCategory.prvalue => Except.error IllFormed.no_matching_function

/-! ## Atomic< T > over std::atomic< T > (trivially copyable T) -/

namespace Trivial

/-- The member type `_A_ = std::atomic< T >`, by the value it holds. -/
structure std_atomic (T : Type) where
  value : T
  deriving DecidableEq, Repr

/-- Member `std::atomic< T >::load()`. -/
def std_atomic.load {T : Type} (a : std_atomic T) : T :=
  a.value

/-- Member `std::atomic< T >::store( desired )`, also reached through
`operator =( T )`. -/
def std_atomic.store {T : Type} (a : std_atomic T) (desired : T) : std_atomic T :=
  { a with value := desired }

/-- Initialising a `std::atomic< T >` from another `std::atomic< T >`, lvalue
or rvalue: overload resolution selects `atomic( const atomic & ) = delete;`,
an exact match, ahead of `atomic( T )`, which needs a conversion. -/
def std_atomic.ctorAtomic {T : Type} (_other : std_atomic T) :
    Except IllFormed (std_atomic T) :=
  Except.error IllFormed.deleted_function

/-- Assigning a `std::atomic< T >` to another `std::atomic< T >`: overload
resolution selects `atomic & operator =( const atomic & ) = delete;`, an exact
match, ahead of `operator =( T )`, which needs a conversion. -/
def std_atomic.assignAtomic {T : Type} (_this _other : std_atomic T) :
    Except IllFormed (std_atomic T) :=
  Except.error IllFormed.deleted_function

/-- The call `swap( a, b )` under `using std::swap;` on two `std::atomic< T >`:
`std::swap` asks for a type that can be move-constructed and move-assigned,
and no other `swap` takes a `std::atomic< T >`. -/
def std_swap {T : Type} (_a _b : std_atomic T) :
    Except IllFormed (std_atomic T × std_atomic T) :=
  Except.error IllFormed.no_matching_function

/-- Class `Atomic< T >`, first specialisation: the single data member `_A_ _v`. -/
structure Atomic (T : Type) where
  _v : std_atomic T
  deriving DecidableEq, Repr

variable {T : Type}

/-- Constructor `Atomic( void ): _v{}`. -/
def Atomic.ctorDefault [Inhabited T] : Atomic T :=
  { _v := { value := default } }

/-- Constructor `Atomic( T v ): _v{ v }`. -/
def Atomic.ctorValue (v : T) : Atomic T :=
  { _v := { value := v } }

/-- Constructor `Atomic( const Atomic< T > & o ): _v{ o._v.load() }`. -/
def Atomic.ctorCopy (o : Atomic T) : Atomic T :=
  { _v := { value := o._v.load } }

/-- Constructor `Atomic( const Atomic< T > && o ): _v{ std::move( o._v ) }`:
the member is initialised from a `std::atomic< T >`. -/
def Atomic.ctorMove (o : Atomic T) : Except IllFormed (Atomic T) := do
  let v ← std_atomic.ctorAtomic o._v
  pure { _v := v }

/-- Member `operator =( T v )`: `this->_v = v; return *( this );`.
The result is (object afterwards, returned value). -/
def Atomic.assignValue (this : Atomic T) (v : T) : Atomic T × Returned (Atomic T) :=
  ({ this with _v := this._v.store v }, Returned.self)

/-- Member `operator =( Atomic< T > o )` called as `this = other`: the by-value
parameter `o` is copy-constructed from `other`, then `this->_v = o._v;
return *( this );`, an assignment between two `std::atomic< T >`.  The result
would be (object afterwards, `other` afterwards, returned value). -/
def Atomic.assign (this other : Atomic T) :
    Except IllFormed (Atomic T × Atomic T × Returned (Atomic T)) := do
  let o := Atomic.ctorCopy other
  let v ← std_atomic.assignAtomic this._v o._v
  pure ({ this with _v := v }, other, Returned.self)

/-- Member `operator T ( void ) const`: `return this->_v;`, a load. -/
def Atomic.read (this : Atomic T) : T :=
  this._v.load

/-- Member `operator ++ ( void )`: `return *( this );`. -/
def Atomic.preIncrement (this : Atomic T) : Atomic T × Returned (Atomic T) :=
  (this, Returned.self)

/-- Member `operator ++ ( int )`: `return *( this );`, by value. -/
def Atomic.postIncrement (this : Atomic T) : Atomic T × Returned (Atomic T) :=
  (this, Returned.temporary (Atomic.ctorCopy this))

/-- Member `operator -- ( void )`: `return *( this );`. -/
def Atomic.preDecrement (this : Atomic T) : Atomic T × Returned (Atomic T) :=
  (this, Returned.self)

/-- Member `operator -- ( int )`: `return *( this );`, by value. -/
def Atomic.postDecrement (this : Atomic T) : Atomic T × Returned (Atomic T) :=
  (this, Returned.temporary (Atomic.ctorCopy this))

/-- Member `IsLockFree()`: `return this->_v.is_lock_free();`.  The answer of
`std::atomic< T >::is_lock_free()` belongs to the platform and to `T`, not to
the repository, and is a parameter.  The result is (returned `bool`, object
afterwards). -/
def Atomic.IsLockFree (is_lock_free : Bool) (this : Atomic T) : Bool × Atomic T :=
  (is_lock_free, this)

/-- Friend `swap( o1, o2 )`: `using std::swap; swap( o1._v, o2._v );`, a swap
of two `std::atomic< T >`.  The result would be (o1 afterwards, o2
afterwards). -/
def swap (o1 o2 : Atomic T) : Except IllFormed (Atomic T × Atomic T) := do
  let r ← std_swap o1._v o2._v
  pure ({ o1 with _v := r.1 }, { o2 with _v := r.2 })

/-- A run of value assignments `cell = v` made one after another. -/
def Atomic.assignAll (cell : Atomic T) (vs : List T) : Atomic T :=
  vs.foldl (fun c v => (c.assignValue v).1) cell

end Trivial

/-! ## Atomic< T > over a plain T guarded by a std::recursive_mutex -/

namespace Guarded

/-- Identity of a thread of execution. -/
abbrev ThreadId : Type := Nat

/-- The member type `_M_ = std::recursive_mutex`, by its ownership state:
free, or owned by a thread that has locked it `again + 1` times. -/
inductive recursive_mutex where
  | unlocked
  | held (owner : ThreadId) (again : Nat)
  deriving DecidableEq, Repr

/-- Member `std::recursive_mutex::lock()` called by thread `t`.  A free mutex
becomes owned, the owner may lock again; a thread facing a mutex owned by
another thread waits, which is the absence of a result. -/
def recursive_mutex.lock (m : recursive_mutex) (t : ThreadId) : Option recursive_mutex :=
  match m with
  | recursive_mutex.unlocked => some (recursive_mutex.held t 0)
  | recursive_mutex.held owner again =>
      if owner = t then some (recursive_mutex.held owner (again + 1)) else none

/-- Member `std::recursive_mutex::unlock()` called by thread `t`: one level of
ownership is given back.  Only the owner may call it. -/
def recursive_mutex.unlock (m : recursive_mutex) (t : ThreadId) : Option recursive_mutex :=
  match m with
  | recursive_mutex.unlocked => none
  | recursive_mutex.held owner 0 =>
      if owner = t then some recursive_mutex.unlocked else none
  | recursive_mutex.held owner (again + 1) =>
      if owner = t then some (recursive_mutex.held owner again) else none

/-- Function `std::lock( m1, m2 )` called by thread `t` on two mutex objects:
it returns once the thread owns both, and owns neither while it waits. -/
def std_lock (t : ThreadId) (m1 m2 : recursive_mutex) :
    Option (recursive_mutex × recursive_mutex) :=
  match m1.lock t, m2.lock t with
  | some a, some b => some (a, b)
  | _, _ => none

/-- Whether thread `t` owns the mutex. -/
def recursive_mutex.heldBy (m : recursive_mutex) (t : ThreadId) : Bool :=
  match m with
  | recursive_mutex.unlocked => false
  | recursive_mutex.held owner _ => decide (owner = t)

/-- Whether thread `t` can take the mutex without waiting: it is free, or
`t` owns it already. -/
def recursive_mutex.acquirable (m : recursive_mutex) (t : ThreadId) : Bool :=
  match m with
  | recursive_mutex.unlocked => true
  | recursive_mutex.held owner _ => decide (owner = t)

/-- Class `Atomic< T >`, second specialisation: the data members `T _v` and
`mutable _M_ _rmtx`. -/
structure Atomic (T : Type) where
  _v : T
  _rmtx : recursive_mutex
  deriving DecidableEq, Repr

variable {T : Type}

/-- Constructor `Atomic( void ): _v{}`. -/
def Atomic.ctorDefault [Inhabited T] : Atomic T :=
  { _v := default, _rmtx := recursive_mutex.unlocked }

/-- Constructor `Atomic( T v ): _v{ v }`. -/
def Atomic.ctorValue (v : T) : Atomic T :=
  { _v := v, _rmtx := recursive_mutex.unlocked }

/-- Private constructor `Atomic( const Atomic< T > & o, _L_ & l ): _v{ o._v }`,
whose body only mentions `l`; the new object has a mutex of its own. -/
def Atomic.ctorLocked (o : Atomic T) : Atomic T :=
  { _v := o._v, _rmtx := recursive_mutex.unlocked }

/-- Private constructor `Atomic( const Atomic< T > && o, _L_ & l ):
_v{ std::move( o._v ) }`; the operand is `const`, its value is copied. -/
def Atomic.ctorLockedMove (o : Atomic T) : Atomic T :=
  { _v := o._v, _rmtx := recursive_mutex.unlocked }

/-- Constructor `Atomic( const Atomic< T > & o ): Atomic< T >( o, _L_( o._rmtx ) )`.
The delegation passes the temporary `_L_( o._rmtx )`, a prvalue, for the
parameter `_L_ & l` of either private constructor. -/
def Atomic.ctorCopy (o : Atomic T) : Except IllFormed (Atomic T) := do
  bindLvalueRef ValueCategory.prvalue
  pure (Atomic.ctorLocked o)

/-- Constructor `Atomic( const Atomic< T > && o ): Atomic< T >( o, _L_( o._rmtx ) )`.
Inside the constructor the name `o` is an lvalue, so the delegation is the one
of the copy constructor, with the same temporary for `_L_ & l`. -/
def Atomic.ctorMove (o : Atomic T) : Except IllFormed (Atomic T) := do
  bindLvalueRef ValueCategory.prvalue
  pure (Atomic.ctorLocked o)

/-- Member `operator =( T v )` run by thread `t`: `_L_ l( this->_rmtx );
this->_v = v; return *( this );`, the guard released on return.  The result is
(object afterwards, returned value). -/
def Atomic.assignValue (t : ThreadId) (this : Atomic T) (v : T) :
    Option (Atomic T × Returned (Atomic T)) := do
  let m ← this._rmtx.lock t
  let this1 : Atomic T := { this with _rmtx := m }
  let this2 : Atomic T := { this1 with _v := v }
  let m1 ← this2._rmtx.unlock t
  pure ({ this2 with _rmtx := m1 }, Returned.self)

/-- Member `operator =( Atomic< T > o )` run by thread `t`, on its object and
its by-value parameter `o`, the object it copies from:
`std::lock( this->_rmtx, o._rmtx ); _L_ l1( this->_rmtx, std::adopt_lock );
_L_ l2( o._rmtx, std::adopt_lock ); this->_v = o._v; return *( this );`, with
`l2` then `l1` released on return.  The result is (object afterwards,
parameter afterwards, returned value). -/
def Atomic.assign (t : ThreadId) (this o : Atomic T) :
    Option (Atomic T × Atomic T × Returned (Atomic T)) := do
  let (m1, m2) ← std_lock t this._rmtx o._rmtx
  let this1 : Atomic T := { this with _rmtx := m1 }
  let o1 : Atomic T := { o with _rmtx := m2 }
  let this2 : Atomic T := { this1 with _v := o1._v }
  let m4 ← o1._rmtx.unlock t
  let m3 ← this2._rmtx.unlock t
  pure ({ this2 with _rmtx := m3 }, { o1 with _rmtx := m4 }, Returned.self)

/-- The expression `this = other` with a named cell `other`, run by thread `t`:
the by-value parameter of `operator =( Atomic< T > o )` is copy-constructed
from `other`, then the member runs on it.  The result would be (object
afterwards, `other` afterwards, returned value). -/
def Atomic.assignFrom (t : ThreadId) (this other : Atomic T) :
    Except IllFormed (Option (Atomic T × Atomic T × Returned (Atomic T))) := do
  let o ← Atomic.ctorCopy other
  pure ((Atomic.assign t this o).map fun r => (r.1, other, r.2.2))

/-- Member `operator T ( void ) const` run by thread `t`: `_L_ l( this->_rmtx );
return this->_v;`.  The result is (returned value, object afterwards). -/
def Atomic.read (t : ThreadId) (this : Atomic T) : Option (T × Atomic T) := do
  let m ← this._rmtx.lock t
  let this1 : Atomic T := { this with _rmtx := m }
  let r := this1._v
  let m1 ← this1._rmtx.unlock t
  pure (r, { this1 with _rmtx := m1 })

/-- Member `operator ++ ( void )`: `return *( this );`. -/
def Atomic.preIncrement (this : Atomic T) : Atomic T × Returned (Atomic T) :=
  (this, Returned.self)

/-- Member `operator ++ ( int )`: `return *( this );`, by value, through the
copy constructor.  The result would be (object afterwards, returned value). -/
def Atomic.postIncrement (this : Atomic T) :
    Except IllFormed (Atomic T × Returned (Atomic T)) := do
  let copy ← Atomic.ctorCopy this
  pure (this, Returned.temporary copy)

/-- Member `operator -- ( void )`: `return *( this );`. -/
def Atomic.preDecrement (this : Atomic T) : Atomic T × Returned (Atomic T) :=
  (this, Returned.self)

/-- Member `operator -- ( int )`: `return *( this );`, by value, through the
copy constructor.  The result would be (object afterwards, returned value). -/
def Atomic.postDecrement (this : Atomic T) :
    Except IllFormed (Atomic T × Returned (Atomic T)) := do
  let copy ← Atomic.ctorCopy this
  pure (this, Returned.temporary copy)

/-- Member `IsLockFree()`: `return false;`.  The result is (returned `bool`,
object afterwards). -/
def Atomic.IsLockFree (this : Atomic T) : Bool × Atomic T :=
  (false, this)

/-- Friend `swap( o1, o2 )` run by thread `t`: `std::lock( o1._rmtx, o2._rmtx );
_L_ l1( o1._rmtx, std::adopt_lock ); _L_ l2( o2._rmtx, std::adopt_lock );
using std::swap; swap( o1._v, o2._v );`, with `l2` then `l1` released on
return.  The result is (o1 afterwards, o2 afterwards). -/
def swap (t : ThreadId) (o1 o2 : Atomic T) : Option (Atomic T × Atomic T) := do
  let (m1, m2) ← std_lock t o1._rmtx o2._rmtx
  let a : Atomic T := { o1 with _rmtx := m1 }
  let b : Atomic T := { o2 with _rmtx := m2 }
  let a1 : Atomic T := { a with _v := b._v }
  let b1 : Atomic T := { b with _v := a._v }
  let m4 ← b1._rmtx.unlock t
  let m3 ← a1._rmtx.unlock t
  pure ({ a1 with _rmtx := m3 }, { b1 with _rmtx := m4 })

/-- A run of value assignments `cell = v`, each made by its own thread, one
after another. -/
def Atomic.assignAll (cell : Atomic T) (ws : List (ThreadId × T)) : Option (Atomic T) :=
  ws.foldlM (fun c w => (c.assignValue w.1 w.2).map Prod.fst) cell

/-! ### The copy assignment, one primitive action at a time -/

end Guarded

end XS

namespace XS

/-! ## Facts about the mutex -/

namespace Guarded

variable {T : Type}

/-- A thread that can take the mutex takes it, then owns it, and giving it
back restores the state found on entry. -/
theorem recursive_mutex.lock_then_unlock (m : recursive_mutex) (t : ThreadId)
    (h : m.acquirable t = true) :
    ∃ m1, m.lock t = some m1 ∧ m1.unlock t = some m ∧ m1.heldBy t = true := by
  cases m with
  | unlocked =>
      exact ⟨recursive_mutex.held t 0, rfl, by simp [recursive_mutex.unlock],
        by simp [recursive_mutex.heldBy]⟩
  | held owner again =>
      have ho : owner = t := by simpa [recursive_mutex.acquirable] using h
      subst ho
      exact ⟨recursive_mutex.held owner (again + 1), by simp [recursive_mutex.lock],
        by simp [recursive_mutex.unlock], by simp [recursive_mutex.heldBy]⟩

/-- The value assignment on a cell whose mutex the thread can take. -/
theorem Atomic.assignValue_eq (t : ThreadId) (this : Atomic T) (v : T)
    (h : this._rmtx.acquirable t = true) :
    Atomic.assignValue t this v = some ({ this with _v := v }, Returned.self) := by
  obtain ⟨m1, h1, h2, _⟩ := recursive_mutex.lock_then_unlock this._rmtx t h
  simp [Atomic.assignValue, h1, h2]

/-- The read on a cell whose mutex the thread can take. -/
theorem Atomic.read_eq (t : ThreadId) (this : Atomic T)
    (h : this._rmtx.acquirable t = true) :
    Atomic.read t this = some (this._v, this) := by
  obtain ⟨m1, h1, h2, _⟩ := recursive_mutex.lock_then_unlock this._rmtx t h
  simp [Atomic.read, h1, h2]

/-- The body of the cell-to-cell assignment on an object and a parameter whose
mutexes the thread can take. -/
theorem Atomic.assign_eq (t : ThreadId) (this o : Atomic T)
    (h1 : this._rmtx.acquirable t = true) (h2 : o._rmtx.acquirable t = true) :
    Atomic.assign t this o = some ({ this with _v := o._v }, o, Returned.self) := by
  obtain ⟨m1, hl1, hu1, _⟩ := recursive_mutex.lock_then_unlock this._rmtx t h1
  obtain ⟨m2, hl2, hu2, _⟩ := recursive_mutex.lock_then_unlock o._rmtx t h2
  simp [Atomic.assign, std_lock, hl1, hl2, hu1, hu2]

/-- The swap on two cells whose mutexes the thread can take. -/
theorem swap_eq (t : ThreadId) (o1 o2 : Atomic T)
    (h1 : o1._rmtx.acquirable t = true) (h2 : o2._rmtx.acquirable t = true) :
    swap t o1 o2 = some ({ o1 with _v := o2._v }, { o2 with _v := o1._v }) := by
  obtain ⟨m1, hl1, hu1, _⟩ := recursive_mutex.lock_then_unlock o1._rmtx t h1
  obtain ⟨m2, hl2, hu2, _⟩ := recursive_mutex.lock_then_unlock o2._rmtx t h2
  simp [swap, std_lock, hl1, hl2, hu1, hu2]

end Guarded

/-! ## The compare-and-swap contract -/

section Cells

open Guarded

variable {T : Type}

/-- The last of a non-empty run of value assignments is what the trivial cell holds. -/
theorem Trivial.Atomic.assignAll_read (cell : Trivial.Atomic T) (vs : List T) (hne : vs ≠ []) :
    (Trivial.Atomic.assignAll cell vs).read = vs.getLast hne := by
  induction vs generalizing cell with
  | nil => exact absurd rfl hne
  | cons v rest ih =>
      cases rest with
      | nil => rfl
      | cons w rest2 =>
          have := ih (cell.assignValue v).1 (by simp)
          simpa [Trivial.Atomic.assignAll] using this

/-- A run of value assignments by threads that can all take the mutex goes
through and leaves the last value, the mutex as found. -/
theorem Guarded.Atomic.assignAll_eq (cell : Guarded.Atomic T) (ws : List (ThreadId × T))
    (hne : ws ≠ []) (hacq : ∀ w ∈ ws, cell._rmtx.acquirable w.1 = true) :
    Guarded.Atomic.assignAll cell ws = some { cell with _v := (ws.getLast hne).2 } := by
  induction ws generalizing cell with
  | nil => exact absurd rfl hne
  | cons w rest ih =>
      have hw := Guarded.Atomic.assignValue_eq w.1 cell w.2 (hacq w (by simp))
      cases rest with
      | nil => simp [Guarded.Atomic.assignAll, hw]
      | cons w2 rest2 =>
          have h2 := ih { cell with _v := w.2 } (by simp)
            (fun x hx => hacq x (List.mem_cons_of_mem _ hx))
          simpa [Guarded.Atomic.assignAll, hw] using h2

/-- C2: in both variants, after a non-empty sequence of value assignments
`cell = v` applied one after another (in the guarded variant by any threads
that find the mutex available), a read returns one of the written values,
namely the last one written, and each assignment returns the cell itself. -/
theorem read_after_assignments_is_last_written
    (cellT : Trivial.Atomic T) (cellG : Guarded.Atomic T)
    (ws : List (ThreadId × T)) (reader : ThreadId) (hne : ws ≠ [])
    (hwriters : ∀ w ∈ ws, cellG._rmtx.acquirable w.1 = true)
    (hreader : cellG._rmtx.acquirable reader = true) :
    ((Trivial.Atomic.assignAll cellT (ws.map Prod.snd)).read = (ws.getLast hne).2 ∧
      (Trivial.Atomic.assignAll cellT (ws.map Prod.snd)).read ∈ ws.map Prod.snd ∧
      ∀ (c : Trivial.Atomic T) (v : T), (c.assignValue v).2 = Returned.self) ∧
    (∃ cell : Guarded.Atomic T,
      Guarded.Atomic.assignAll cellG ws = some cell ∧
      cell.read reader = some ((ws.getLast hne).2, cell) ∧
      (ws.getLast hne).2 ∈ ws.map Prod.snd ∧
      cell._rmtx = cellG._rmtx ∧
      ∀ w ∈ ws, ∀ c : Guarded.Atomic T, c._rmtx = cellG._rmtx →
        ∃ c1, c.assignValue w.1 w.2 = some (c1, Returned.self)) := by
  have hlast : (ws.getLast hne).2 ∈ ws.map Prod.snd :=
    List.mem_map_of_mem Prod.snd (List.getLast_mem hne)
  have hmap : ws.map Prod.snd ≠ [] := by simpa using hne
  have hT : (Trivial.Atomic.assignAll cellT (ws.map Prod.snd)).read = (ws.getLast hne).2 := by
    rw [Trivial.Atomic.assignAll_read cellT _ hmap, List.getLast_map]
  refine ⟨⟨hT, hT ▸ hlast, fun c v => rfl⟩, ?_⟩
  refine ⟨{ cellG with _v := (ws.getLast hne).2 },
    Guarded.Atomic.assignAll_eq cellG ws hne hwriters, ?_, hlast, rfl, ?_⟩
  · exact Guarded.Atomic.read_eq reader _ hreader
  · intro w hw c hc
    exact ⟨_, Guarded.Atomic.assignValue_eq w.1 c w.2 (hc ▸ hwriters w hw)⟩

/-- Witness for C2: two threads write 5 then 6, a third reads 6. -/
theorem read_after_assignments_is_last_written_witness :
    (Trivial.Atomic.assignAll (Trivial.Atomic.ctorValue 1) [5, 6]).read = 6 ∧
    Guarded.Atomic.assignAll (Guarded.Atomic.ctorValue 1) [(1, 5), (2, 6)]
      = some (Guarded.Atomic.ctorValue 6) ∧
    (Guarded.Atomic.ctorValue 6).read 3 = some (6, Guarded.Atomic.ctorValue 6) := by
  have h := read_after_assignments_is_last_written (Trivial.Atomic.ctorValue (1 : Nat))
    (Guarded.Atomic.ctorValue (1 : Nat)) [(1, 5), (2, 6)] 3 (by decide) (by decide) (by decide)
  obtain ⟨⟨hT, _, _⟩, cell, hrun, hread, _, _, _⟩ := h
  have hcell : cell = Guarded.Atomic.ctorValue 6 :=
    (Option.some.inj (hrun.symm.trans (by decide : Guarded.Atomic.assignAll
      (Guarded.Atomic.ctorValue 1) [(1, 5), (2, 6)] = some (Guarded.Atomic.ctorValue 6)))).symm ▸ rfl
  subst hcell
  exact ⟨hT, hrun, hread⟩

/-- C3: `swap( a, b )` on two guarded cells holding `v1` and `v2` leaves `a`
holding `v2` and `b` holding `v1`, nothing else about either cell changes and
each mutex is back in the state found on entry (free when it was free).  On
two trivial-path cells the same call is rejected when the friend is compiled:
no `swap` takes the two `std::atomic< T >` members. -/
theorem swap_exchanges_guarded_and_is_rejected_trivial (v1 v2 : T)
    (m1 m2 : recursive_mutex) (t : ThreadId)
    (h1 : m1.acquirable t = true) (h2 : m2.acquirable t = true) :
    (Guarded.swap t { _v := v1, _rmtx := m1 } { _v := v2, _rmtx := m2 }
        = some ({ _v := v2, _rmtx := m1 }, { _v := v1, _rmtx := m2 }) ∧
      Guarded.swap t (Guarded.Atomic.ctorValue v1) (Guarded.Atomic.ctorValue v2)
        = some (Guarded.Atomic.ctorValue v2, Guarded.Atomic.ctorValue v1)) ∧
    Trivial.swap (Trivial.Atomic.ctorValue v1) (Trivial.Atomic.ctorValue v2)
      = Except.error IllFormed.no_matching_function := by
  refine ⟨⟨?_, ?_⟩, rfl⟩
  · exact Guarded.swap_eq t _ _ h1 h2
  · exact Guarded.swap_eq t _ _ rfl rfl

/-- Witness for C3: cells holding 1 and 2, both mutexes free, thread 3. -/
theorem swap_exchanges_guarded_and_is_rejected_trivial_witness :
    Guarded.swap 3 { _v := 1, _rmtx := recursive_mutex.unlocked }
        { _v := 2, _rmtx := recursive_mutex.unlocked }
      = some ({ _v := 2, _rmtx := recursive_mutex.unlocked },
              { _v := 1, _rmtx := recursive_mutex.unlocked }) ∧
    Trivial.swap (Trivial.Atomic.ctorValue 1) (Trivial.Atomic.ctorValue 2)
      = Except.error IllFormed.no_matching_function :=
  ⟨(swap_exchanges_guarded_and_is_rejected_trivial (1 : Nat) 2 recursive_mutex.unlocked
      recursive_mutex.unlocked 3 (by decide) (by decide)).1.1,
   (swap_exchanges_guarded_and_is_rejected_trivial (1 : Nat) 2 recursive_mutex.unlocked
      recursive_mutex.unlocked 3 (by decide) (by decide)).2⟩

/-- C4: on two guarded cells `swap( a, b )` followed by `swap( a, b )` again
leaves `a` holding `v1` and `b` holding `v2`, the two cells as they were.  On
two trivial-path cells already the first call is rejected when the friend is
compiled, so no pair of calls restores anything. -/
theorem swap_twice_restores_guarded_and_is_rejected_trivial (v1 v2 : T)
    (m1 m2 : recursive_mutex) (t : ThreadId)
    (h1 : m1.acquirable t = true) (h2 : m2.acquirable t = true) :
    (Guarded.swap t { _v := v1, _rmtx := m1 } { _v := v2, _rmtx := m2 }).bind
        (fun r => Guarded.swap t r.1 r.2)
      = some ({ _v := v1, _rmtx := m1 }, { _v := v2, _rmtx := m2 }) ∧
    (Trivial.swap (Trivial.Atomic.ctorValue v1) (Trivial.Atomic.ctorValue v2)).bind
        (fun r => Trivial.swap r.1 r.2)
      = Except.error IllFormed.no_matching_function := by
  refine ⟨?_, rfl⟩
  rw [Guarded.swap_eq t _ _ h1 h2]
  exact Guarded.swap_eq t _ _ h1 h2

/-- Witness for C4: cells holding 1 and 2, both mutexes free, thread 3. -/
theorem swap_twice_restores_guarded_and_is_rejected_trivial_witness :
    (Guarded.swap 3 { _v := 1, _rmtx := recursive_mutex.unlocked }
        { _v := 2, _rmtx := recursive_mutex.unlocked }).bind
        (fun r => Guarded.swap 3 r.1 r.2)
      = some ({ _v := 1, _rmtx := recursive_mutex.unlocked },
              { _v := 2, _rmtx := recursive_mutex.unlocked }) :=
  (swap_twice_restores_guarded_and_is_rejected_trivial (1 : Nat) 2 recursive_mutex.unlocked
    recursive_mutex.unlocked 3 (by decide) (by decide)).1

/-- C5: each of `++x`, `x++`, `--x`, `x--` applied to a trivial-path cell
holding `v`, and each of `++x`, `--x` applied to a guarded cell holding `v`,
leaves the cell as it was, holding `v`, and the object it returns reads as
`v`; the prefix forms return the cell itself, the trivial postfix forms a
copy.  The guarded `x++` and `x--` are rejected when compiled: they return
through the copy constructor. -/
theorem increment_decrement_inert_and_guarded_postfix_rejected (v : T)
    (m : recursive_mutex) (t : ThreadId) (h : m.acquirable t = true) :
    ((∀ op ∈ ([Trivial.Atomic.preIncrement, Trivial.Atomic.postIncrement,
               Trivial.Atomic.preDecrement, Trivial.Atomic.postDecrement] :
              List (Trivial.Atomic T → Trivial.Atomic T × Returned (Trivial.Atomic T))),
        (op (Trivial.Atomic.ctorValue v)).1 = Trivial.Atomic.ctorValue v ∧
        (op (Trivial.Atomic.ctorValue v)).1.read = v ∧
        (Returned.object (op (Trivial.Atomic.ctorValue v)).1
          (op (Trivial.Atomic.ctorValue v)).2).read = v) ∧
      (Trivial.Atomic.ctorValue v).preIncrement.2 = Returned.self ∧
      (Trivial.Atomic.ctorValue v).preDecrement.2 = Returned.self ∧
      (Trivial.Atomic.ctorValue v).postIncrement.2
        = Returned.temporary (Trivial.Atomic.ctorValue v) ∧
      (Trivial.Atomic.ctorValue v).postDecrement.2
        = Returned.temporary (Trivial.Atomic.ctorValue v)) ∧
    ((∀ op ∈ ([Guarded.Atomic.preIncrement, Guarded.Atomic.preDecrement] :
              List (Guarded.Atomic T → Guarded.Atomic T × Returned (Guarded.Atomic T))),
        (op { _v := v, _rmtx := m }).1 = { _v := v, _rmtx := m } ∧
        (op { _v := v, _rmtx := m }).2 = Returned.self ∧
        Guarded.Atomic.read t (op { _v := v, _rmtx := m }).1
          = some (v, { _v := v, _rmtx := m }) ∧
        Guarded.Atomic.read t
            (Returned.object (op { _v := v, _rmtx := m }).1 (op { _v := v, _rmtx := m }).2)
          = some (v, { _v := v, _rmtx := m })) ∧
      Guarded.Atomic.postIncrement { _v := v, _rmtx := m }
        = Except.error IllFormed.no_matching_function ∧
      Guarded.Atomic.postDecrement { _v := v, _rmtx := m }
        = Except.error IllFormed.no_matching_function) := by
  have hread := Guarded.Atomic.read_eq t { _v := v, _rmtx := m } h
  refine ⟨⟨?_, rfl, rfl, rfl, rfl⟩, ?_, rfl, rfl⟩
  · intro op hop
    simp only [List.mem_cons, List.mem_singleton, List.not_mem_nil, or_false] at hop
    rcases hop with rfl | rfl | rfl | rfl <;> exact ⟨rfl, rfl, rfl⟩
  · intro op hop
    simp only [List.mem_cons, List.mem_singleton, List.not_mem_nil, or_false] at hop
    rcases hop with rfl | rfl <;> exact ⟨rfl, rfl, hread, hread⟩

/-- Witness for C5: a guarded cell holding 4 with a free mutex, read by thread 1
after `++x`, and `x++` on it. -/
theorem increment_decrement_inert_and_guarded_postfix_rejected_witness :
    Guarded.Atomic.read 1 (Guarded.Atomic.preIncrement (Guarded.Atomic.ctorValue 4)).1
      = some (4, Guarded.Atomic.ctorValue 4) ∧
    Guarded.Atomic.postIncrement (Guarded.Atomic.ctorValue 4)
      = Except.error IllFormed.no_matching_function :=
  ⟨((increment_decrement_inert_and_guarded_postfix_rejected (4 : Nat)
      recursive_mutex.unlocked 1 (by decide)).2.1 Guarded.Atomic.preIncrement
      (by simp)).2.2.1,
   (increment_decrement_inert_and_guarded_postfix_rejected (4 : Nat)
      recursive_mutex.unlocked 1 (by decide)).2.2.1⟩

/-- C6, as written, fails: on a platform whose `std::atomic< T >::is_lock_free()`
answers false for `T`, `IsLockFree()` of a trivial-path cell returns false. -/
theorem IsLockFree_trivial_not_always_true :
    (Trivial.Atomic.IsLockFree false (Trivial.Atomic.ctorValue (0 : Nat))).1 = false ∧
    ¬ (∀ (is_lock_free : Bool) (cell : Trivial.Atomic Nat),
        (Trivial.Atomic.IsLockFree is_lock_free cell).1 = true) := by
  refine ⟨rfl, fun h => ?_⟩
  have := h false (Trivial.Atomic.ctorValue 0)
  simp [Trivial.Atomic.IsLockFree] at this

/-- C6, amended: `IsLockFree()` of a trivial-path cell returns what
`std::atomic< T >::is_lock_free()` answers for the stored object, that of a
guarded-path cell returns false, for every value type and every stored value,
and neither changes the cell. -/
theorem IsLockFree_reports (is_lock_free : Bool) (cellT : Trivial.Atomic T)
    (cellG : Guarded.Atomic T) :
    Trivial.Atomic.IsLockFree is_lock_free cellT = (is_lock_free, cellT) ∧
    Guarded.Atomic.IsLockFree cellG = (false, cellG) :=
  ⟨rfl, rfl⟩

/-- C7: `a = b` with a named cell `b` is rejected when compiled, in both
variants: on the trivial path the member assigns one `std::atomic< T >` to
another, on the guarded path the by-value parameter needs the copy
constructor.  Run on a parameter `o` holding `w`, the guarded member leaves
its object reading as `w`, the parameter still reading as `w`, both mutexes
as found on entry, and returns the object itself; so it does on the temporary
of `a = Atomic< T >( w )`. -/
theorem assign_cell_rejected_for_named_source (u w : T) (ma mo : recursive_mutex)
    (t : ThreadId) (ha : ma.acquirable t = true) (ho : mo.acquirable t = true) :
    (∀ a b : Trivial.Atomic T,
        Trivial.Atomic.assign a b = Except.error IllFormed.deleted_function) ∧
    (∀ (t1 : ThreadId) (a b : Guarded.Atomic T),
        Guarded.Atomic.assignFrom t1 a b = Except.error IllFormed.no_matching_function) ∧
    (Guarded.Atomic.assign t { _v := u, _rmtx := ma } { _v := w, _rmtx := mo }
        = some ({ _v := w, _rmtx := ma }, { _v := w, _rmtx := mo }, Returned.self) ∧
      Guarded.Atomic.assign t { _v := u, _rmtx := ma } (Guarded.Atomic.ctorValue w)
        = some ({ _v := w, _rmtx := ma }, Guarded.Atomic.ctorValue w, Returned.self) ∧
      Guarded.Atomic.read t { _v := w, _rmtx := ma } = some (w, { _v := w, _rmtx := ma }) ∧
      Guarded.Atomic.read t { _v := w, _rmtx := mo } = some (w, { _v := w, _rmtx := mo })) := by
  refine ⟨fun a b => rfl, fun t1 a b => rfl, ?_, ?_, ?_, ?_⟩
  · exact Guarded.Atomic.assign_eq t _ _ ha ho
  · exact Guarded.Atomic.assign_eq t _ _ ha rfl
  · exact Guarded.Atomic.read_eq t _ ha
  · exact Guarded.Atomic.read_eq t _ ho

/-- Witness for C7: `a = b` on cells holding 1 and 2, and the guarded member
run by thread 3 on an object holding 1 and a parameter holding 2. -/
theorem assign_cell_rejected_for_named_source_witness :
    Trivial.Atomic.assign (Trivial.Atomic.ctorValue 1) (Trivial.Atomic.ctorValue 2)
      = Except.error IllFormed.deleted_function ∧
    Guarded.Atomic.assignFrom 3 (Guarded.Atomic.ctorValue 1) (Guarded.Atomic.ctorValue 2)
      = Except.error IllFormed.no_matching_function ∧
    Guarded.Atomic.assign 3 { _v := 1, _rmtx := recursive_mutex.unlocked }
        { _v := 2, _rmtx := recursive_mutex.unlocked }
      = some ({ _v := 2, _rmtx := recursive_mutex.unlocked },
              { _v := 2, _rmtx := recursive_mutex.unlocked }, Returned.self) :=
  ⟨(assign_cell_rejected_for_named_source (1 : Nat) 2 recursive_mutex.unlocked
      recursive_mutex.unlocked 3 (by decide) (by decide)).1 _ _,
   (assign_cell_rejected_for_named_source (1 : Nat) 2 recursive_mutex.unlocked
      recursive_mutex.unlocked 3 (by decide) (by decide)).2.1 3 _ _,
   (assign_cell_rejected_for_named_source (1 : Nat) 2 recursive_mutex.unlocked
      recursive_mutex.unlocked 3 (by decide) (by decide)).2.2.1⟩

/-- C9: the two assignments of the scenario, `A = B` by one thread and `B = A`
by another, on two named guarded cells, are both rejected when compiled: each
needs the copy constructor for its by-value parameter.  Neither assignment
can be performed, let alone completed. -/
theorem opposite_assignments_are_rejected (A B : Guarded.Atomic T) :
    Guarded.Atomic.assignFrom 1 A B = Except.error IllFormed.no_matching_function ∧
    Guarded.Atomic.assignFrom 2 B A = Except.error IllFormed.no_matching_function :=
  ⟨rfl, rfl⟩

/-- C10: on the trivial path the copy constructor yields a cell reading as `v`
and the constructor taking an rvalue is rejected when compiled, its
initialiser selecting the deleted copy constructor of `std::atomic< T >`; on
the guarded path both constructors are rejected, each passing a temporary
lock guard for `_L_ & l`. -/
theorem move_construction_is_rejected (v : T) (m : recursive_mutex) :
    (Trivial.Atomic.ctorCopy (Trivial.Atomic.ctorValue v) = Trivial.Atomic.ctorValue v ∧
      (Trivial.Atomic.ctorCopy (Trivial.Atomic.ctorValue v)).read = v ∧
      Trivial.Atomic.ctorMove (Trivial.Atomic.ctorValue v)
        = Except.error IllFormed.deleted_function) ∧
    (Guarded.Atomic.ctorCopy { _v := v, _rmtx := m }
        = Except.error IllFormed.no_matching_function ∧
      Guarded.Atomic.ctorMove { _v := v, _rmtx := m }
        = Except.error IllFormed.no_matching_function) :=
  ⟨⟨rfl, rfl, rfl⟩, rfl, rfl⟩

end Cells

/-! ## The copy assignment of the guarded variant, action by action -/

section Steps

open Guarded

variable {T : Type}

end Steps

end XS
